import Mathlib

/-!
Verification of the Quiz Assessment Engine (a TypeScript quiz builder/runner
with an Express + Postgres backend) against its natural-language specification.

The development shallowly embeds the engine's pure core:

* the client-side scorer `scoreQuiz` (src/src/utils/quiz.ts),
* the server-side scorer `scoreAttempt` (src/server/utils/scoring.ts),
* the presentation normalizer `shuffleArray` / `normalizeQuiz` (src/src/utils/quiz.ts),
* the client validator `validateQuiz` with its zod `quizSchema` (src/src/utils/quiz.ts),
* the attempt lifecycle route handlers for `answer` and `submit`
  (src/server/routes/attempts.ts), modelled from the point where
  authentication, ownership and JSON-body parsing have succeeded
  (those guards are external-collaborator concerns), and
* the attempts summary aggregation (src/server/routes/quizzes.ts).

JavaScript runtime details are modelled as follows: answer values are the
JSON values admitted by `attemptAnswerSchema` (string, string array, boolean,
null); `===` on those values is `jsStrictEq`; `String(...)` coercion is
`AnsVal.jsStringOrEmpty`; default `Array.prototype.sort` on strings is an
insertion sort by code-point order (`sortStrings`; JS orders by UTF-16 code
unit, but the only use compares the two sorted lists for equality, which is
the same multiset-equality test for any total order); `Math.round` on a
nonnegative-denominator exact ratio is `jsRoundDiv` (round half toward +∞);
number arithmetic is treated as exact.
-/

/-- An answer value as admitted by `attemptAnswerSchema`
(`z.union([z.string(), z.array(z.string()), z.boolean(), z.null()])`) and by
the client `QuizAnswerMap` (`string | string[] | boolean | null`). -/
inductive AnsVal where
  | str (s : String)
  | list (xs : List String)
  | bool (b : Bool)
  | null
deriving DecidableEq, Repr

/-- A stored correct answer for a single-choice or true/false question
(`correctAnswer?: string | boolean` on `QuizQuestionRecord`). -/
inductive CorrectAns where
  | s (v : String)
  | b (v : Bool)
deriving DecidableEq, Repr

/-- JavaScript `String(answer ?? '')` applied to an answer value: `null`
becomes the empty string (via `?? ''`), booleans print as `true`/`false`,
and a string array joins its elements with commas
(`Array.prototype.toString`). -/
def AnsVal.jsStringOrEmpty : AnsVal → String
  | .null => ""
  | .str s => s
  | .bool b => if b then "true" else "false"
  | .list xs => String.intercalate "," xs

/-- JavaScript `String.prototype.trim()`: strip whitespace from both ends.
(JS also strips a few exotic Unicode space characters; the difference is
immaterial here and shared by every use site.) -/
def jsTrim (s : String) : String :=
  ⟨((s.data.dropWhile Char.isWhitespace).reverse.dropWhile Char.isWhitespace).reverse⟩

/-- JavaScript `String.prototype.toLowerCase()`, character-wise lowercasing
(ASCII scope, shared by every use site). -/
def jsToLower (s : String) : String := ⟨s.data.map Char.toLower⟩

/-- JavaScript `answer === question.correctAnswer` where `answer` is an
answer value and `correctAnswer` is `string | boolean | undefined`:
equal only when both are strings or both are booleans with equal values;
arrays and `null` are never strictly equal to a string/boolean/undefined. -/
def jsStrictEq : AnsVal → Option CorrectAns → Bool
  | .str s, some (.s t) => s == t
  | .bool a, some (.b c) => a == c
  | _, _ => false

/-- Code-point lexicographic comparison on character lists, used to model
the default JS string sort order. -/
def charsLe : List Char → List Char → Bool
  | [], _ => true
  | _ :: _, [] => false
  | a :: as, b :: bs => if a < b then true else if b < a then false else charsLe as bs

/-- String comparison for `sortStrings`. -/
def strLeB (a b : String) : Bool := charsLe a.data b.data

/-- Insert into a sorted list (helper for `sortStrings`). -/
def insertString (s : String) : List String → List String
  | [] => [s]
  | t :: ts => if strLeB s t then s :: t :: ts else t :: insertString s ts

/-- JavaScript `[...arr].sort()` on a string array: a sort by string order.
Only the equality of two such sorted lists is ever consumed, which is
invariant in the choice of total order. -/
def sortStrings (l : List String) : List String := l.foldr insertString []

/-- The question-type discriminator
(`'multiple_choice_single' | 'multiple_choice_multi' | 'true_false' | 'short_text'`). -/
inductive QType where
  | multiple_choice_single
  | multiple_choice_multi
  | true_false
  | short_text
deriving DecidableEq, Repr

/-- A question record as both scorers consume it: the server's
`QuizQuestionRecord` (src/server/routes/quizzes.ts), which is also what the
client `QuizRunner` feeds into `scoreQuiz` at runtime (its questions come
from `GET /api/quizzes/:id`). `required` and `points` are optional because
`scoreAttempt` defends with `?? 1` and the submit route tests truthiness. -/
structure Question where
  id : String
  type : QType
  prompt : String := ""
  required : Option Bool := none
  points : Option Nat := none
  explanation : Option String := none
  options : List String := []
  correctAnswer : Option CorrectAns := none
  correctAnswers : List String := []
  acceptedAnswers : List String := []
deriving DecidableEq, Repr

/-- An answer map (`Record<string, ...>` keyed by question id). -/
def AnswerMap := List (String × AnsVal)

/-- Key lookup in an answer map (`answers[questionId]`, `undefined` when
absent). -/
def lookupAnswer (m : AnswerMap) (questionId : String) : Option AnsVal :=
  List.lookup questionId m

/-- Per-question grading of the client scorer `scoreQuiz`
(src/src/utils/quiz.ts, the four `if (question.type === ...)` blocks). -/
def clientIsCorrect (question : Question) (answer : AnsVal) : Bool :=
  match question.type with
  | .multiple_choice_single => jsStrictEq answer question.correctAnswer
  | .multiple_choice_multi =>
      let provided := match answer with
        | .list xs => sortStrings xs
        | _ => []
      let expected := sortStrings question.correctAnswers
      provided.length == expected.length &&
        (provided.zip expected).all (fun p => p.1 == p.2)
  | .true_false => jsStrictEq answer question.correctAnswer
  | .short_text =>
      let normalized := jsToLower (jsTrim answer.jsStringOrEmpty)
      question.acceptedAnswers.any (fun accepted => jsToLower (jsTrim accepted) == normalized)

/-- Per-question grading of the server scorer `scoreAttempt`
(src/server/utils/scoring.ts). The source duplicates the client logic
verbatim; it is embedded separately because the spec treats the two call
sites as independent implementations whose agreement must be proved. -/
def serverIsCorrect (question : Question) (answer : AnsVal) : Bool :=
  match question.type with
  | .multiple_choice_single => jsStrictEq answer question.correctAnswer
  | .multiple_choice_multi =>
      let provided := match answer with
        | .list xs => sortStrings xs
        | _ => []
      let expected := sortStrings question.correctAnswers
      provided.length == expected.length &&
        (provided.zip expected).all (fun p => p.1 == p.2)
  | .true_false => jsStrictEq answer question.correctAnswer
  | .short_text =>
      let normalized := jsToLower (jsTrim answer.jsStringOrEmpty)
      question.acceptedAnswers.any (fun accepted => jsToLower (jsTrim accepted) == normalized)

/-- Rounded percentage `Math.round((totalScore / maxScore) * 100)` for
`maxScore > 0`, as exact rational arithmetic with half rounded up. -/
def roundPct (total maxScore : Nat) : Nat := (200 * total + maxScore) / (2 * maxScore)

/-- `passingScore ? percentage >= passingScore : true` — both scorers treat
an unset or zero (falsy) passing score as an automatic pass. -/
def jsPassed (passingScore : Option Nat) (percentage : Nat) : Bool :=
  match passingScore with
  | none => true
  | some p => if p == 0 then true else decide (p ≤ percentage)

/-- One element of client `perQuestion` (`ScoredQuestion` in quiz.ts). -/
structure ClientScoredQuestion where
  questionId : String
  isCorrect : Bool
  score : Nat
  maxScore : Nat
  answer : AnsVal
deriving DecidableEq, Repr

/-- Client `QuizScoreResult`. -/
structure ClientScoreResult where
  totalScore : Nat
  maxScore : Nat
  percentage : Nat
  passed : Bool
  perQuestion : List ClientScoredQuestion
deriving DecidableEq, Repr

/-- The client-side quiz object as consumed by `scoreQuiz` and
`normalizeQuiz` (`QuizDefinition` fields they read). -/
structure QuizDefinition where
  id : String := ""
  title : String := ""
  passingScore : Option Nat := none
  shuffleQuestions : Option Bool := none
  shuffleOptions : Option Bool := none
  questions : List Question
deriving DecidableEq, Repr

/-- The client scorer `scoreQuiz(quiz, answers)` (src/src/utils/quiz.ts):
every question is worth a hard-coded `score: isCorrect ? 1 : 0` and
`maxScore: 1`. -/
def scoreQuiz (quiz : QuizDefinition) (answers : AnswerMap) : ClientScoreResult :=
  let perQuestion := quiz.questions.map (fun question =>
    let answer := (lookupAnswer answers question.id).getD .null
    let isCorrect := clientIsCorrect question answer
    { questionId := question.id, isCorrect, score := if isCorrect then 1 else 0,
      maxScore := 1, answer : ClientScoredQuestion })
  let totalScore := perQuestion.foldl (fun sum item => sum + item.score) 0
  let maxScore := perQuestion.foldl (fun sum item => sum + item.maxScore) 0
  let percentage := if maxScore == 0 then 0 else roundPct totalScore maxScore
  let passed := jsPassed quiz.passingScore percentage
  { totalScore, maxScore, percentage, passed, perQuestion }

/-- One element of server `perQuestion` (in `ScoreResult`, scoring.ts). -/
structure ServerScoredQuestion where
  questionId : String
  isCorrect : Bool
  earnedPoints : Nat
  answer : AnsVal
deriving DecidableEq, Repr

/-- Server `ScoreResult`. -/
structure ServerScoreResult where
  totalScore : Nat
  maxScore : Nat
  percentage : Nat
  passed : Bool
  perQuestion : List ServerScoredQuestion
deriving DecidableEq, Repr

/-- The server scorer `scoreAttempt(questions, answers, passingScore?)`
(src/server/utils/scoring.ts): `earnedPoints = isCorrect ? (points ?? 1) : 0`
and `maxScore` sums `points ?? 1` over all questions. -/
def scoreAttempt (questions : List Question) (answers : AnswerMap)
    (passingScore : Option Nat) : ServerScoreResult :=
  let perQuestion := questions.map (fun question =>
    let answer := (lookupAnswer answers question.id).getD .null
    let isCorrect := serverIsCorrect question answer
    let points := question.points.getD 1
    { questionId := question.id, isCorrect,
      earnedPoints := if isCorrect then points else 0, answer : ServerScoredQuestion })
  let totalScore := perQuestion.foldl (fun sum item => sum + item.earnedPoints) 0
  let maxScore := questions.foldl (fun sum question => sum + question.points.getD 1) 0
  let percentage := if maxScore == 0 then 0 else roundPct totalScore maxScore
  let passed := jsPassed passingScore percentage
  { totalScore, maxScore, percentage, passed, perQuestion }

/-- Swap the elements at positions `i` and `j` of a list (the body of one
Fisher–Yates iteration, `[copy[i], copy[j]] = [copy[j], copy[i]]`); the
out-of-range case cannot occur at the call site. -/
def swapNat (xs : List α) (i j : Nat) : List α :=
  match xs[i]?, xs[j]? with
  | some a, some b => (xs.set i b).set j a
  | _, _ => xs

/-- The Fisher–Yates loop of `shuffleArray`: the counter runs
`i = length-1, ..., 1`, and each iteration swaps position `i` with position
`j = Math.floor(Math.random() * (i + 1))`. The random draws are made
explicit as a function `draws` from the loop counter to a natural number,
reduced modulo `i + 1`; every reachable value `j ∈ [0, i]` is realised by
some `draws`, so universal quantification over `draws` covers every outcome
of the randomness. -/
def fisherYatesAux (draws : Nat → Nat) (xs : List α) : Nat → List α
  | 0 => xs
  | i + 1 => fisherYatesAux draws (swapNat xs (i + 1) (draws (i + 1) % (i + 2))) i

/-- `shuffleArray` (src/src/utils/quiz.ts), parametrised by the random
draws. -/
def shuffleArray (draws : Nat → Nat) (xs : List α) : List α :=
  fisherYatesAux draws xs (xs.length - 1)

/-- The `questions.map(...)` pass of `normalizeQuiz`: when `shuffleOptions`
is set, each choice-type question's options are shuffled with its own fresh
randomness (`odraws` is indexed by the question's position). -/
def shuffleOptionsList (doShuffle : Bool) (odraws : Nat → Nat → Nat) (idx : Nat) :
    List Question → List Question
  | [] => []
  | question :: rest =>
      (if doShuffle &&
          (question.type == .multiple_choice_single || question.type == .multiple_choice_multi)
       then { question with options := shuffleArray (odraws idx) question.options }
       else question) :: shuffleOptionsList doShuffle odraws (idx + 1) rest

/-- `normalizeQuiz` (src/src/utils/quiz.ts): shuffle the question sequence
when `quiz.shuffleQuestions` is truthy, then shuffle each choice question's
options when `quiz.shuffleOptions` is truthy. -/
def normalizeQuiz (qdraws : Nat → Nat) (odraws : Nat → Nat → Nat)
    (quiz : QuizDefinition) : QuizDefinition :=
  let questions :=
    if quiz.shuffleQuestions.getD false then shuffleArray qdraws quiz.questions
    else quiz.questions
  { quiz with questions := shuffleOptionsList (quiz.shuffleOptions.getD false) odraws 0 questions }

/-- A question document in the client's zod `quizSchema` discriminated
union (src/src/utils/quiz.ts). The client schema has no `required` or
`points` field. -/
inductive QuestionDoc where
  | multiple_choice_single (id prompt : String) (options : List String)
      (correctAnswer : String) (explanation : Option String)
  | multiple_choice_multi (id prompt : String) (options : List String)
      (correctAnswers : List String) (explanation : Option String)
  | true_false (id prompt : String) (correctAnswer : Bool) (explanation : Option String)
  | short_text (id prompt : String) (acceptedAnswers : List String) (explanation : Option String)
deriving DecidableEq, Repr

/-- The question id, for the warning passes. -/
def QuestionDoc.qid : QuestionDoc → String
  | .multiple_choice_single id _ _ _ _ => id
  | .multiple_choice_multi id _ _ _ _ => id
  | .true_false id _ _ _ => id
  | .short_text id _ _ _ => id

/-- A quiz document in the shape of the client `quizSchema`
(src/src/utils/quiz.ts). The modelled input space is the type-correct
documents; zod's silent stripping of unknown object keys is outside it.
`passingScore` is modelled as a natural number (the schema admits any
number in [0, 100]). -/
structure QuizDoc where
  id : String
  title : String
  description : Option String := none
  timeLimitSeconds : Option Int := none
  passingScore : Option Nat := none
  shuffleQuestions : Option Bool := none
  shuffleOptions : Option Bool := none
  showQuestionList : Option Bool := none
  questions : List QuestionDoc
deriving DecidableEq, Repr

/-- Validation issues of one question document against the client
`quizSchema` (error messages as in the schema; the zod default message for
a bare `z.string().min(1)` is abbreviated). Only emptiness of the combined
issue list is consumed downstream. -/
def questionDocIssues : QuestionDoc → List String
  | .multiple_choice_single id prompt options correctAnswer _ =>
      (if id.length < 1 then ["Question id is required."] else []) ++
      (if prompt.length < 1 then ["Prompt is required."] else []) ++
      (options.filterMap (fun o => if o.length < 1 then some "String must contain at least 1 character(s)" else none)) ++
      (if options.length < 2 then ["Provide at least 2 options."] else []) ++
      (if correctAnswer.length < 1 then ["String must contain at least 1 character(s)"] else [])
  | .multiple_choice_multi id prompt options correctAnswers _ =>
      (if id.length < 1 then ["Question id is required."] else []) ++
      (if prompt.length < 1 then ["Prompt is required."] else []) ++
      (options.filterMap (fun o => if o.length < 1 then some "String must contain at least 1 character(s)" else none)) ++
      (if options.length < 2 then ["Provide at least 2 options."] else []) ++
      (correctAnswers.filterMap (fun a => if a.length < 1 then some "String must contain at least 1 character(s)" else none)) ++
      (if correctAnswers.length < 1 then ["Provide at least 1 correct answer."] else [])
  | .true_false id prompt _ _ =>
      (if id.length < 1 then ["Question id is required."] else []) ++
      (if prompt.length < 1 then ["Prompt is required."] else [])
  | .short_text id prompt acceptedAnswers _ =>
      (if id.length < 1 then ["Question id is required."] else []) ++
      (if prompt.length < 1 then ["Prompt is required."] else []) ++
      (acceptedAnswers.filterMap (fun a => if a.length < 1 then some "String must contain at least 1 character(s)" else none)) ++
      (if acceptedAnswers.length < 1 then ["Provide at least 1 accepted answer."] else [])

/-- Validation issues of a quiz document against the client `quizSchema`.
Note the schema places no minimum on the `questions` array itself. -/
def quizIssues (doc : QuizDoc) : List String :=
  (if doc.id.length < 1 then ["Quiz id is required."] else []) ++
  (if doc.title.length < 1 then ["Quiz title is required."] else []) ++
  (match doc.timeLimitSeconds with
   | some t => if t ≤ 0 then ["Number must be greater than 0"] else []
   | none => []) ++
  (match doc.passingScore with
   | some p => if p > 100 then ["Number must be less than or equal to 100"] else []
   | none => []) ++
  (doc.questions.flatMap questionDocIssues)

/-- A semantic warning from the second pass of `validateQuiz`. The source
pushes interpolated strings; only the kind and question id matter. -/
inductive QuizWarning where
  | duplicateQuestionId (id : String)
  | repeatedOptions (id : String)
  | correctAnswerNotInOptions (id : String)
  | correctAnswersNotInOptions (id : String)
deriving DecidableEq, Repr

/-- First warning pass of `validateQuiz`: duplicate question ids (tracked
with a growing seen-set) and repeated option text within one choice
question (`new Set(options).size !== options.length`). -/
def firstWarningPass (questions : List QuestionDoc) (seen : List String) : List QuizWarning :=
  match questions with
  | [] => []
  | question :: rest =>
      (if seen.contains question.qid then [QuizWarning.duplicateQuestionId question.qid] else []) ++
      (match question with
       | .multiple_choice_single id _ options _ _ =>
           if options.eraseDups.length ≠ options.length then [QuizWarning.repeatedOptions id] else []
       | .multiple_choice_multi id _ options _ _ =>
           if options.eraseDups.length ≠ options.length then [QuizWarning.repeatedOptions id] else []
       | _ => []) ++
      firstWarningPass rest (question.qid :: seen)

/-- Second warning pass of `validateQuiz`: a `correctAnswer` or some
`correctAnswers` entry that is not a member of the question's options. -/
def secondWarningPass (questions : List QuestionDoc) : List QuizWarning :=
  questions.flatMap (fun question =>
    match question with
    | .multiple_choice_single id _ options correctAnswer _ =>
        if ! options.contains correctAnswer then [QuizWarning.correctAnswerNotInOptions id] else []
    | .multiple_choice_multi id _ options correctAnswers _ =>
        if ! (correctAnswers.filter (fun a => ! options.contains a)).isEmpty
        then [QuizWarning.correctAnswersNotInOptions id] else []
    | _ => [])

/-- The result shape of `validateQuiz` (`ValidationResult` in quiz.ts). -/
structure ValidationResult where
  data : Option QuizDoc
  errors : List String
  warnings : List QuizWarning
deriving DecidableEq, Repr

/-- `validateQuiz(input)` (src/src/utils/quiz.ts): a failed schema parse
yields the error messages and no data; a successful parse yields the parsed
document (identical to the input on this input space) with the two warning
passes and no errors. -/
def validateQuiz (input : QuizDoc) : ValidationResult :=
  let issues := quizIssues input
  if issues.isEmpty then
    { data := some input, errors := [],
      warnings := firstWarningPass input.questions [] ++ secondWarningPass input.questions }
  else
    { data := none, errors := issues, warnings := [] }

/-- A stored `answers` row for an attempt (table `answers`): the recorded
value plus grading columns filled in at submit time. -/
structure AnswerRow where
  question_id : String
  answer_json : AnsVal
  is_correct : Option Bool := none
  earned_points : Option Nat := none
deriving DecidableEq, Repr

/-- The mutable state of one attempt (its `attempts` row plus its `answers`
rows). Timestamps are integers (milliseconds). -/
structure AttemptRow where
  started_at : Option Int := none
  submitted_at : Option Int := none
  time_taken_seconds : Option Int := none
  score : Option Nat := none
  percentage : Option Nat := none
  passed : Option Bool := none
  answers : List AnswerRow := []
deriving DecidableEq, Repr

/-- The answers upsert of the answer route:
`INSERT ... ON CONFLICT (attempt_id, question_id) DO UPDATE SET answer_json`
— on conflict only `answer_json` is replaced. -/
def upsertAnswer (rows : List AnswerRow) (questionId : String) (answer : AnsVal) :
    List AnswerRow :=
  if rows.any (fun r => r.question_id == questionId) then
    rows.map (fun r => if r.question_id == questionId then { r with answer_json := answer } else r)
  else
    rows ++ [{ question_id := questionId, answer_json := answer }]

/-- The `POST /api/attempts/:attemptId/answer` handler
(src/server/routes/attempts.ts), from the point where the session user owns
the existing attempt and the body parsed. It first runs
`UPDATE attempts SET submitted_at = NULL` and then upserts every entry of
the payload; it performs no state check and never fails. -/
def answerHandler (attempt : AttemptRow) (payload : AnswerMap) : AttemptRow :=
  let cleared := { attempt with submitted_at := none }
  { cleared with
    answers := payload.foldl (fun rows entry => upsertAnswer rows entry.1 entry.2) cleared.answers }

/-- The missing-answer test of the submit route for one required question:
`Array.isArray(answer) ? answer.length === 0 : typeof answer === 'string' ?
answer.trim().length === 0 : answer === null || answer === undefined`.
A boolean answer is never missing. -/
def answerMissing (answer : Option AnsVal) : Bool :=
  match answer with
  | some (.list xs) => xs.isEmpty
  | some (.str s) => (jsTrim s).length == 0
  | some (.bool _) => false
  | some .null => true
  | none => true

/-- The quiz settings consulted by the submit route
(`quiz.settings_json`). -/
structure QuizSettings where
  enforceRequiredBeforeSubmit : Option Bool := none
  passingScore : Option Nat := none
deriving DecidableEq, Repr

/-- Error responses of the submit route beyond the auth/parse guards. -/
inductive SubmitError where
  | missingRequired
deriving DecidableEq, Repr

/-- The JSON body returned by a successful submit. -/
structure SubmitResponse where
  score : Nat
  percentage : Nat
  passed : Bool
  timeTakenSeconds : Option Int
  perQuestion : List ServerScoredQuestion
deriving DecidableEq, Repr

/-- Mutually exclusive outcomes of the submit route: an error response
(no write performed) or a success carrying the updated attempt state and
the JSON response body. -/
inductive SubmitOutcome where
  | err (e : SubmitError)
  | ok (attempt : AttemptRow) (response : SubmitResponse)
deriving DecidableEq, Repr

/-- `Math.round(p / q)` for integers with `q > 0`, as exact arithmetic:
half rounds toward +∞, so the result is `⌊(p + q/2) / q⌋ = ⌊(2p+q)/(2q)⌋`. -/
def jsRoundDiv (p q : Int) : Int := Int.ediv (2 * p + q) (2 * q)

/-- The `POST /api/attempts/:attemptId/submit` handler
(src/server/routes/attempts.ts), from the point where the session user owns
the existing attempt, the body parsed, and the quiz with its question
records was fetched. When the required-answer gate trips it responds 400
`missing_required` and performs no write; otherwise it grades with
`scoreAttempt`, overwrites the attempt row (`submitted_at = NOW()`, score,
percentage, passed, time taken) and replaces all answers rows with the
graded per-question outcomes. It never inspects the current
`submitted_at`. -/
def submitHandler (now : Int) (attempt : AttemptRow) (settings : QuizSettings)
    (questions : List Question) (payload : AnswerMap) : SubmitOutcome :=
  let requiredIds := (questions.filter (fun q => q.required.getD false)).map (fun q => q.id)
  let missingRequired := requiredIds.filter (fun id => answerMissing (lookupAnswer payload id))
  if settings.enforceRequiredBeforeSubmit != some false && ! missingRequired.isEmpty then
    .err .missingRequired
  else
    let scoreResult := scoreAttempt questions payload settings.passingScore
    let timeTakenSeconds := attempt.started_at.map (fun t => jsRoundDiv (now - t) 1000)
    let updated := { attempt with
      submitted_at := some now
      time_taken_seconds := timeTakenSeconds
      score := some scoreResult.totalScore
      percentage := some scoreResult.percentage
      passed := some scoreResult.passed
      answers := scoreResult.perQuestion.map (fun q =>
        { question_id := q.questionId, answer_json := q.answer,
          is_correct := some q.isCorrect, earned_points := some q.earnedPoints }) }
    .ok updated
      { score := scoreResult.totalScore, percentage := scoreResult.percentage,
        passed := scoreResult.passed, timeTakenSeconds,
        perQuestion := scoreResult.perQuestion }

/-- One joined attempt row as consumed by the owner analytics endpoint. -/
structure AttemptSummaryRow where
  score : Option Int := none
  time_taken_seconds : Option Int := none
  passed : Option Bool := none
deriving DecidableEq, Repr

/-- Insert into an ascending list (helper for `sortInts`). -/
def insertInt (x : Int) : List Int → List Int
  | [] => [x]
  | y :: ys => if x ≤ y then x :: y :: ys else y :: insertInt x ys

/-- JavaScript `arr.sort((a, b) => a - b)`: sort ascending. -/
def sortInts (l : List Int) : List Int := l.foldr insertInt []

/-- The summary block of `GET /api/quizzes/:id/attempts`. -/
structure AttemptsSummary where
  attempts : Nat
  averageScore : Int
  medianScore : Int
  passRate : Int
  averageTime : Int
deriving DecidableEq, Repr

/-- The summary computation of `GET /api/quizzes/:id/attempts`
(src/server/routes/quizzes.ts, lines 343–353): unset scores and times count
as 0, scores are sorted ascending, the median takes the middle element for
an odd count and `Math.round` of the two middle elements' average for an
even count, and every aggregate of an empty set is 0. -/
def summarize (rows : List AttemptSummaryRow) : AttemptsSummary :=
  let scores := sortInts (rows.map (fun r => r.score.getD 0))
  let times := rows.map (fun r => r.time_taken_seconds.getD 0)
  let passCount := (rows.filter (fun r => r.passed.getD false)).length
  let n := scores.length
  let averageScore := if n == 0 then 0 else jsRoundDiv (scores.foldl (· + ·) 0) n
  let medianScore :=
    if n == 0 then 0
    else if n % 2 == 1 then scores.getD (n / 2) 0
    else jsRoundDiv (scores.getD (n / 2 - 1) 0 + scores.getD (n / 2) 0) 2
  let passRate := if n == 0 then 0 else jsRoundDiv ((passCount : Int) * 100) n
  let averageTime :=
    if times.length == 0 then 0 else jsRoundDiv (times.foldl (· + ·) 0) times.length
  { attempts := n, averageScore, medianScore, passRate, averageTime }

/-- The standard median of a score sequence, written from the claim's own
words (not from the code): sort ascending, take the middle element for an
odd count, the exact average of the two middle elements for an even count,
and 0 for an empty sequence. Valued in ℚ because an exact average of two
integers can be a half-integer. -/
def specMedian (scores : List Int) : ℚ :=
  let s := sortInts scores
  let n := s.length
  if n = 0 then 0
  else if n % 2 = 1 then ((s.getD (n / 2) 0 : Int) : ℚ)
  else (((s.getD (n / 2 - 1) 0 : Int) : ℚ) + ((s.getD (n / 2) 0 : Int) : ℚ)) / 2

/-- Rounding half toward +∞ on ℚ, the behaviour of `Math.round`. -/
def roundHalfUp (q : ℚ) : Int := ⌊q + 1 / 2⌋

/-- Sanity condition on a question's configured answers under which a
missing answer can never be graded correct: no whitespace-only correct
answer for choice/boolean types, a non-empty `correctAnswers` set for
multi-choice (validation guarantees this), and no accepted short-text
answer that normalizes to the empty string. A whitespace-only accepted
answer is schema-valid (`z.string().min(1)` counts the raw character), and
on such a question a missing answer is graded correct — see the C3
counterexample. -/
def blankFree (q : Question) : Prop :=
  match q.type with
  | .multiple_choice_single | .true_false =>
      (match q.correctAnswer with
       | some (.s s) => jsTrim s ≠ ""
       | _ => True)
  | .multiple_choice_multi => q.correctAnswers ≠ []
  | .short_text => ∀ s ∈ q.acceptedAnswers, jsToLower (jsTrim s) ≠ ""


section Helpers

/-- Folding `+` over mapped values equals adding the mapped sum (the shape
of every `reduce((sum, item) => sum + f(item), 0)` in the engine). -/
theorem foldl_add_eq (f : α → Nat) :
    ∀ (l : List α) (n : Nat), l.foldl (fun sum it => sum + f it) n = n + (l.map f).sum
  | [], n => by simp
  | x :: t, n => by
    simp [List.foldl_cons, foldl_add_eq f t (n + f x), Nat.add_assoc]

/-- Prepending a list element to the result of overwriting some position
with `a` is, up to permutation, prepending `a` (helper for swap). -/
theorem cons_set_perm (a : α) :
    ∀ (l : List α) (k : Nat) (b : α), l[k]? = some b →
      List.Perm (b :: l.set k a) (a :: l)
  | [], k, b, h => by simp at h
  | x :: t, 0, b, h => by
    simp at h
    subst h
    exact List.Perm.swap a x t
  | x :: t, k + 1, b, h => by
    simp at h
    have s1 : List.Perm (b :: x :: t.set k a) (x :: b :: t.set k a) := List.Perm.swap x b _
    have s2 : List.Perm (x :: b :: t.set k a) (x :: a :: t) := (cons_set_perm a t k b h).cons x
    have s3 : List.Perm (x :: a :: t) (a :: x :: t) := List.Perm.swap a x t
    exact (s1.trans s2).trans s3

/-- Writing each of two positions' elements over the other is a
permutation. -/
theorem set_set_swap_perm :
    ∀ (l : List α) (i j : Nat) (a b : α), l[i]? = some a → l[j]? = some b →
      List.Perm ((l.set i b).set j a) l
  | [], i, _, _, _, hi, _ => by simp at hi
  | x :: t, 0, 0, a, b, hi, hj => by
    simp at hi hj
    subst hi
    subst hj
    simp
  | x :: t, 0, j + 1, a, b, hi, hj => by
    simp at hi hj
    subst hi
    simpa using cons_set_perm x t j b hj
  | x :: t, i + 1, 0, a, b, hi, hj => by
    simp at hi hj
    subst hj
    simpa using cons_set_perm x t i a hi
  | x :: t, i + 1, j + 1, a, b, hi, hj => by
    simp at hi hj
    have ih := set_set_swap_perm t i j a b hi hj
    simpa using ih.cons x

/-- One Fisher–Yates swap permutes the list. -/
theorem swapNat_perm (xs : List α) (i j : Nat) : List.Perm (swapNat xs i j) xs := by
  unfold swapNat
  cases hi : xs[i]? with
  | none => exact List.Perm.refl xs
  | some a =>
    cases hj : xs[j]? with
    | none => exact List.Perm.refl xs
    | some b => exact set_set_swap_perm xs i j a b hi hj

/-- The Fisher–Yates loop permutes the list, whatever the draws. -/
theorem fisherYatesAux_perm (draws : Nat → Nat) :
    ∀ (n : Nat) (xs : List α), List.Perm (fisherYatesAux draws xs n) xs
  | 0, xs => List.Perm.refl xs
  | n + 1, xs =>
    (fisherYatesAux_perm draws n _).trans (swapNat_perm xs (n + 1) (draws (n + 1) % (n + 2)))

/-- `shuffleArray` permutes the array for every outcome of the draws. -/
theorem shuffleArray_perm (draws : Nat → Nat) (xs : List α) :
    List.Perm (shuffleArray draws xs) xs :=
  fisherYatesAux_perm draws (xs.length - 1) xs

end Helpers

/-- C2 counterexample: the submit route performs no lifecycle-state check.
An attempt already SUBMITTED (`submitted_at = some 100`) with stored
`score = some 0` is re-submitted with a now-correct answer; the call does
not fail with a StateError — it succeeds and overwrites the stored score,
percentage, passed flag and per-question results. -/
theorem c2_counterexample :
    submitHandler 5000
      { started_at := some 0, submitted_at := some 100, time_taken_seconds := some 0,
        score := some 0, percentage := some 0, passed := some false,
        answers := [{ question_id := "q1", answer_json := AnsVal.bool false,
                      is_correct := some false, earned_points := some 0 }] }
      {} [{ id := "q1", type := QType.true_false, correctAnswer := some (.b true) }]
      [("q1", AnsVal.bool true)] =
    .ok
      { started_at := some 0, submitted_at := some 5000, time_taken_seconds := some 5,
        score := some 1, percentage := some 100, passed := some true,
        answers := [{ question_id := "q1", answer_json := AnsVal.bool true,
                      is_correct := some true, earned_points := some 1 }] }
      { score := 1, percentage := 100, passed := true, timeTakenSeconds := some 5,
        perQuestion := [{ questionId := "q1", isCorrect := true, earnedPoints := 1,
                          answer := AnsVal.bool true }] } := by
  decide

/-- C2 (amended): a second submit on a SUBMITTED attempt is not rejected —
the submit route never inspects `submitted_at`, so it behaves exactly as on
an IN_PROGRESS attempt: it re-grades the posted answers and overwrites the
stored score, percentage, passed flag and per-question results. -/
theorem c2_submit_ignores_submitted_state (now : Int) (attempt : AttemptRow) (t : Int)
    (settings : QuizSettings) (questions : List Question) (payload : AnswerMap) :
    submitHandler now { attempt with submitted_at := some t } settings questions payload =
      submitHandler now { attempt with submitted_at := none } settings questions payload := by
  cases attempt
  rfl

/-- C4 counterexample: recording an answer against a SUBMITTED attempt
(`submitted_at = some 100`) is not rejected — the write is applied and the
route's `UPDATE attempts SET submitted_at = NULL` moves the attempt back to
IN_PROGRESS (a reverse transition the claim rules out). -/
theorem c4_counterexample :
    answerHandler
      { started_at := some 0, submitted_at := some 100, score := some 1 }
      [("q1", AnsVal.bool true)] =
    { started_at := some 0, submitted_at := none, score := some 1,
      answers := [{ question_id := "q1", answer_json := AnsVal.bool true }] } := by
  decide

/-- C4 (amended): the answer-recording route performs no lifecycle check
and always clears `submitted_at` — for every attempt state and payload the
resulting attempt is un-submitted (IN_PROGRESS), so recording an answer
against a SUBMITTED attempt is accepted and returns it to IN_PROGRESS. -/
theorem c4_answer_clears_submitted (attempt : AttemptRow) (payload : AnswerMap) :
    (answerHandler attempt payload).submitted_at = none := by
  cases attempt
  rfl

/-- C6: when validation succeeds (no errors), the returned quiz is the
input document itself — the client schema neither drops, alters nor
defaults any field of a type-correct document. -/
theorem c6_validate_roundtrip (doc : QuizDoc) (h : (validateQuiz doc).errors = []) :
    (validateQuiz doc).data = some doc := by
  by_cases hi : (quizIssues doc).isEmpty
  · simp [validateQuiz, hi]
  · simp [validateQuiz, hi] at h
    exact absurd (List.isEmpty_iff.mpr h) hi

/-- C6 witness: a concrete valid document round-trips. -/
theorem c6_validate_roundtrip_witness :
    (validateQuiz
      { id := "sample", title := "Sample Quiz", passingScore := some 50,
        questions := [QuestionDoc.true_false "q1" "True?" true none] }).errors = [] ∧
    (validateQuiz
      { id := "sample", title := "Sample Quiz", passingScore := some 50,
        questions := [QuestionDoc.true_false "q1" "True?" true none] }).data =
      some { id := "sample", title := "Sample Quiz", passingScore := some 50,
             questions := [QuestionDoc.true_false "q1" "True?" true none] } :=
  ⟨by decide, c6_validate_roundtrip _ (by decide)⟩

/-- C7 counterexample: the schema places no minimum on the `questions`
array, so a document with an empty question list validates with no errors
and the returned quiz's `questions` sequence is empty. -/
theorem c7_counterexample :
    (validateQuiz { id := "a", title := "t", questions := [] }).errors = [] ∧
    (validateQuiz { id := "a", title := "t", questions := [] }).data =
      some { id := "a", title := "t", questions := [] } := by
  decide

/-- C7 (amended): when validation succeeds the quiz's `id` and `title` are
non-empty strings; the `questions` sequence, however, may be empty. -/
theorem c7_nonempty_id_title (doc : QuizDoc) (h : (validateQuiz doc).errors = []) :
    doc.id ≠ "" ∧ doc.title ≠ "" := by
  have hiss : quizIssues doc = [] := by
    by_cases hi : (quizIssues doc).isEmpty
    · exact List.isEmpty_iff.mp hi
    · simpa [validateQuiz, hi] using h
  simp only [quizIssues, List.append_eq_nil] at hiss
  obtain ⟨⟨⟨⟨h1, h2⟩, _⟩, _⟩, _⟩ := hiss
  constructor
  · intro heq
    rw [heq] at h1
    simp at h1
  · intro heq
    rw [heq] at h2
    simp at h2

/-- C7 witness for the amended claim at a concrete valid document. -/
theorem c7_nonempty_id_title_witness :
    (validateQuiz { id := "a", title := "t", questions := [] }).errors = [] ∧
    ("a" : String) ≠ "" ∧ ("t" : String) ≠ "" :=
  ⟨by decide, c7_nonempty_id_title { id := "a", title := "t", questions := [] } (by decide)⟩

/-- Rounding half-up of an integer is the integer itself. -/
theorem roundHalfUp_int (x : Int) : roundHalfUp ((x : Int) : ℚ) = x := by
  unfold roundHalfUp
  rw [Int.floor_int_add]
  norm_num

/-- `Math.round(x / 2)` on an exact integer `x` equals floor division of
`x + 1` by 2. -/
theorem jsRoundDiv_two (x : Int) : jsRoundDiv x 2 = Int.ediv (x + 1) 2 := by
  unfold jsRoundDiv
  have h : 2 * x + 2 * 1 = 2 * (x + 1) := by ring
  show (2 * x + 2) / (2 * 2) = (x + 1) / 2
  rw [show (2 * x + 2 : Int) = 2 * (x + 1) by ring]
  exact Int.mul_ediv_mul_of_pos _ _ (by norm_num)

/-- Rounding half-up of the exact average of two integers. -/
theorem roundHalfUp_avg (a b : Int) :
    roundHalfUp (((a : ℚ) + (b : ℚ)) / 2) = jsRoundDiv (a + b) 2 := by
  rw [jsRoundDiv_two]
  unfold roundHalfUp
  have h : ((a : ℚ) + (b : ℚ)) / 2 + 1 / 2 = ((a + b + 1 : Int) : ℚ) / ((2 : ℕ) : ℚ) := by
    push_cast
    ring
  rw [h, Rat.floor_intCast_div_natCast]
  rfl

/-- C9 counterexample: over stored scores 2 and 3 the code's `medianScore`
is `Math.round((2 + 3) / 2) = 3`, while the standard median of the sorted
sequence [2, 3] is 5/2 — the summary rounds the even-count median, so it is
not the standard median. -/
theorem c9_counterexample :
    (summarize [{ score := some 2 }, { score := some 3 }]).medianScore = 3 ∧
    specMedian (([{ score := some 2 }, { score := some 3 }] : List AttemptSummaryRow).map
      (fun r => r.score.getD 0)) = 5 / 2 ∧
    ((3 : ℚ) ≠ 5 / 2) := by
  refine ⟨by decide, ?_, by norm_num⟩
  simp [specMedian, sortInts, insertInt]
  norm_num

/-- C9 (amended): `medianScore` is the standard median of the sorted score
sequence (unset scores as 0) rounded half-up to the nearest integer: the
middle element when the count is odd, `Math.round` of the average of the
two middle elements when even, and 0 for an empty set. -/
theorem c9_median_rounded (rows : List AttemptSummaryRow) :
    (summarize rows).medianScore =
      roundHalfUp (specMedian (rows.map (fun r => r.score.getD 0))) := by
  unfold summarize specMedian
  by_cases h0 : (sortInts (rows.map (fun r => r.score.getD 0))).length = 0
  · simp only [h0]
    norm_num [roundHalfUp]
  · by_cases hodd : (sortInts (rows.map (fun r => r.score.getD 0))).length % 2 = 1
    · simp only [h0, hodd]
      simp [h0, hodd, roundHalfUp_int]
    · simp only [h0, hodd]
      simp [h0, hodd, roundHalfUp_avg]

/-- C5 counterexample: the client scorer ignores `points`. A 3-point
single-choice question answered correctly earns per-question `score = 1`
with `maxScore = 1` and contributes 1 (not 3) to `totalScore`, contradicting
the claim that the per-question score equals the question's points value. -/
theorem c5_counterexample :
    (scoreQuiz
      { questions := [{ id := "q1", type := QType.multiple_choice_single, points := some 3,
                        options := ["A", "B"], correctAnswer := some (.s "A") }] }
      [("q1", AnsVal.str "A")]).perQuestion.map (fun e => (e.isCorrect, e.score, e.maxScore)) =
        [(true, 1, 1)] ∧
    (scoreQuiz
      { questions := [{ id := "q1", type := QType.multiple_choice_single, points := some 3,
                        options := ["A", "B"], correctAnswer := some (.s "A") }] }
      [("q1", AnsVal.str "A")]).totalScore = 1 := by
  decide

/-- C5 (amended): the server scorer `scoreAttempt` awards each question
`earnedPoints = points ?? 1` when correct and 0 otherwise and sums
`points ?? 1` into the aggregate `maxScore` (so a correct 3-point question
contributes 3 to `totalScore`, as shown at a concrete input); the client
scorer `scoreQuiz`, by contrast, awards a hard-coded 1 when correct and
reports per-question `maxScore = 1`, ignoring `points` entirely. -/
theorem c5_per_question_points (questions : List Question) (answers : AnswerMap)
    (ps : Option Nat) :
    ((scoreAttempt questions answers ps).perQuestion.map (fun e => e.earnedPoints) =
      questions.map (fun q =>
        if serverIsCorrect q ((lookupAnswer answers q.id).getD .null) then q.points.getD 1
        else 0)) ∧
    ((scoreAttempt questions answers ps).maxScore =
      (questions.map (fun q => q.points.getD 1)).sum) ∧
    ((scoreQuiz { questions := questions, passingScore := ps } answers).perQuestion.map
        (fun e => e.score) =
      questions.map (fun q =>
        if clientIsCorrect q ((lookupAnswer answers q.id).getD .null) then 1 else 0)) ∧
    ((scoreQuiz { questions := questions, passingScore := ps } answers).perQuestion.map
        (fun e => e.maxScore) = questions.map (fun _ => 1)) ∧
    (scoreAttempt
      [{ id := "q1", type := QType.multiple_choice_single, points := some 3,
         options := ["A", "B"], correctAnswer := some (.s "A") }]
      [("q1", AnsVal.str "A")] none).totalScore = 3 := by
  refine ⟨?_, ?_, ?_, ?_, by decide⟩
  · simp [scoreAttempt, List.map_map]
  · simp [scoreAttempt, foldl_add_eq]
  · simp [scoreQuiz, List.map_map]
  · simp only [scoreQuiz, List.map_map]
    rfl

/-- C10: for every short_text question both scorers grade by the JavaScript
`String()` coercion alone — the answer is correct exactly when
`String(answer ?? '').trim().toLowerCase()` equals some accepted answer
under the same normalization. Consequently a boolean answer `true` is
graded correct against accepted answer "True", and an array answer
["a", "b"] is graded as its comma-joined form "a,b" — in both scorers, as
the concrete conjuncts show. -/
theorem c10_short_text_string_coercion :
    (∀ (qid qprompt : String) (req : Option Bool) (pts : Option Nat) (expl : Option String)
        (opts : List String) (ca : Option CorrectAns) (cas accepted : List String)
        (answer : AnsVal),
      clientIsCorrect
        { id := qid, type := QType.short_text, prompt := qprompt, required := req,
          points := pts, explanation := expl, options := opts, correctAnswer := ca,
          correctAnswers := cas, acceptedAnswers := accepted } answer =
        accepted.any (fun acc =>
          jsToLower (jsTrim acc) == jsToLower (jsTrim answer.jsStringOrEmpty))) ∧
    (∀ (qid qprompt : String) (req : Option Bool) (pts : Option Nat) (expl : Option String)
        (opts : List String) (ca : Option CorrectAns) (cas accepted : List String)
        (answer : AnsVal),
      serverIsCorrect
        { id := qid, type := QType.short_text, prompt := qprompt, required := req,
          points := pts, explanation := expl, options := opts, correctAnswer := ca,
          correctAnswers := cas, acceptedAnswers := accepted } answer =
        accepted.any (fun acc =>
          jsToLower (jsTrim acc) == jsToLower (jsTrim answer.jsStringOrEmpty))) ∧
    ((scoreQuiz { questions := [{ id := "q", type := QType.short_text,
                                  acceptedAnswers := ["True"] }] }
        [("q", AnsVal.bool true)]).perQuestion.map (fun e => e.isCorrect) = [true]) ∧
    ((scoreAttempt [{ id := "q", type := QType.short_text, acceptedAnswers := ["True"] }]
        [("q", AnsVal.bool true)] none).perQuestion.map (fun e => e.isCorrect) = [true]) ∧
    ((scoreQuiz { questions := [{ id := "q", type := QType.short_text,
                                  acceptedAnswers := ["a,b"] }] }
        [("q", AnsVal.list ["a", "b"])]).perQuestion.map (fun e => e.isCorrect) = [true]) ∧
    ((scoreAttempt [{ id := "q", type := QType.short_text, acceptedAnswers := ["a,b"] }]
        [("q", AnsVal.list ["a", "b"])] none).perQuestion.map (fun e => e.isCorrect) = [true]) := by
  refine ⟨?_, ?_, by decide, by decide, by decide, by decide⟩
  · intro qid qprompt req pts expl opts ca cas accepted answer
    rfl
  · intro qid qprompt req pts expl opts ca cas accepted answer
    rfl

/-- The two per-question grading functions are syntactically duplicated in
the source and agree definitionally. -/
theorem isCorrect_agree (q : Question) (a : AnsVal) :
    serverIsCorrect q a = clientIsCorrect q a := rfl

/-- `scoreAttempt`'s total as a mapped sum. -/
theorem scoreAttempt_totalScore (questions : List Question) (answers : AnswerMap)
    (ps : Option Nat) :
    (scoreAttempt questions answers ps).totalScore =
      (questions.map (fun q =>
        if serverIsCorrect q ((lookupAnswer answers q.id).getD .null) then q.points.getD 1
        else 0)).sum := by
  simp only [scoreAttempt, foldl_add_eq, List.map_map, Nat.zero_add]
  rfl

/-- `scoreQuiz`'s total as a mapped sum. -/
theorem scoreQuiz_totalScore (quiz : QuizDefinition) (answers : AnswerMap) :
    (scoreQuiz quiz answers).totalScore =
      (quiz.questions.map (fun q =>
        if clientIsCorrect q ((lookupAnswer answers q.id).getD .null) then 1 else 0)).sum := by
  simp only [scoreQuiz, foldl_add_eq, List.map_map, Nat.zero_add]
  rfl

/-- `scoreAttempt`'s maximum as a mapped sum of `points ?? 1`. -/
theorem scoreAttempt_maxScore (questions : List Question) (answers : AnswerMap)
    (ps : Option Nat) :
    (scoreAttempt questions answers ps).maxScore =
      (questions.map (fun q => q.points.getD 1)).sum := by
  simp [scoreAttempt, foldl_add_eq]

/-- `scoreQuiz`'s maximum is the number of questions (1 each). -/
theorem scoreQuiz_maxScore (quiz : QuizDefinition) (answers : AnswerMap) :
    (scoreQuiz quiz answers).maxScore = quiz.questions.length := by
  simp only [scoreQuiz, foldl_add_eq, List.map_map, Nat.zero_add]
  show (quiz.questions.map (fun _ => (1 : Nat))).sum = quiz.questions.length
  simp

/-- `scoreAttempt`'s percentage in terms of its other fields. -/
theorem scoreAttempt_percentage (questions : List Question) (answers : AnswerMap)
    (ps : Option Nat) :
    (scoreAttempt questions answers ps).percentage =
      (if (scoreAttempt questions answers ps).maxScore == 0 then 0
       else roundPct (scoreAttempt questions answers ps).totalScore
         (scoreAttempt questions answers ps).maxScore) := rfl

/-- `scoreQuiz`'s percentage in terms of its other fields. -/
theorem scoreQuiz_percentage (quiz : QuizDefinition) (answers : AnswerMap) :
    (scoreQuiz quiz answers).percentage =
      (if (scoreQuiz quiz answers).maxScore == 0 then 0
       else roundPct (scoreQuiz quiz answers).totalScore (scoreQuiz quiz answers).maxScore) := rfl

/-- `scoreAttempt`'s passed flag in terms of its percentage. -/
theorem scoreAttempt_passed (questions : List Question) (answers : AnswerMap)
    (ps : Option Nat) :
    (scoreAttempt questions answers ps).passed =
      jsPassed ps (scoreAttempt questions answers ps).percentage := rfl

/-- `scoreQuiz`'s passed flag in terms of its percentage. -/
theorem scoreQuiz_passed (quiz : QuizDefinition) (answers : AnswerMap) :
    (scoreQuiz quiz answers).passed =
      jsPassed quiz.passingScore (scoreQuiz quiz answers).percentage := rfl

/-- `scoreAttempt`'s earned points per question, as a map. -/
theorem scoreAttempt_earned (questions : List Question) (answers : AnswerMap)
    (ps : Option Nat) :
    (scoreAttempt questions answers ps).perQuestion.map (fun e => e.earnedPoints) =
      questions.map (fun q =>
        if serverIsCorrect q ((lookupAnswer answers q.id).getD .null) then q.points.getD 1
        else 0) := by
  simp [scoreAttempt, List.map_map]

/-- `scoreQuiz`'s per-question score, as a map. -/
theorem scoreQuiz_score (quiz : QuizDefinition) (answers : AnswerMap) :
    (scoreQuiz quiz answers).perQuestion.map (fun e => e.score) =
      quiz.questions.map (fun q =>
        if clientIsCorrect q ((lookupAnswer answers q.id).getD .null) then 1 else 0) := by
  simp [scoreQuiz, List.map_map]

/-- C1 (amended): the client `scoreQuiz` and the server `scoreAttempt`
always agree on per-question identity, correctness and echoed answer; and
when every question's `points ?? 1` equals 1, they agree on totalScore,
maxScore, percentage, passed and per-question earned score as well. They
diverge on any quiz containing a question with `points > 1`, because the
client scorer hard-codes 1 point per question (see the counterexample). -/
theorem c1_scoring_equivalence (questions : List Question) (answers : AnswerMap)
    (ps : Option Nat) :
    ((scoreAttempt questions answers ps).perQuestion.map
        (fun e => (e.questionId, e.isCorrect, e.answer)) =
      (scoreQuiz { questions := questions, passingScore := ps } answers).perQuestion.map
        (fun e => (e.questionId, e.isCorrect, e.answer))) ∧
    ((∀ q ∈ questions, q.points.getD 1 = 1) →
      (scoreAttempt questions answers ps).totalScore =
        (scoreQuiz { questions := questions, passingScore := ps } answers).totalScore ∧
      (scoreAttempt questions answers ps).maxScore =
        (scoreQuiz { questions := questions, passingScore := ps } answers).maxScore ∧
      (scoreAttempt questions answers ps).percentage =
        (scoreQuiz { questions := questions, passingScore := ps } answers).percentage ∧
      (scoreAttempt questions answers ps).passed =
        (scoreQuiz { questions := questions, passingScore := ps } answers).passed ∧
      (scoreAttempt questions answers ps).perQuestion.map (fun e => e.earnedPoints) =
        (scoreQuiz { questions := questions, passingScore := ps } answers).perQuestion.map
          (fun e => e.score)) := by
  constructor
  · simp only [scoreAttempt, scoreQuiz, List.map_map]
    rfl
  · intro hpts
    have hmap : questions.map (fun q =>
        if serverIsCorrect q ((lookupAnswer answers q.id).getD .null) then q.points.getD 1
        else 0) =
        questions.map (fun q =>
          if clientIsCorrect q ((lookupAnswer answers q.id).getD .null) then 1 else 0) := by
      refine List.map_congr_left (fun q hq => ?_)
      rw [isCorrect_agree, hpts q hq]
    have hTot : (scoreAttempt questions answers ps).totalScore =
        (scoreQuiz { questions := questions, passingScore := ps } answers).totalScore := by
      rw [scoreAttempt_totalScore, scoreQuiz_totalScore, hmap]
    have hMax : (scoreAttempt questions answers ps).maxScore =
        (scoreQuiz { questions := questions, passingScore := ps } answers).maxScore := by
      rw [scoreAttempt_maxScore, scoreQuiz_maxScore]
      have : questions.map (fun q => q.points.getD 1) = questions.map (fun _ => 1) :=
        List.map_congr_left (fun q hq => hpts q hq)
      simp [this]
    have hPct : (scoreAttempt questions answers ps).percentage =
        (scoreQuiz { questions := questions, passingScore := ps } answers).percentage := by
      rw [scoreAttempt_percentage, scoreQuiz_percentage, hTot, hMax]
    refine ⟨hTot, hMax, hPct, ?_, ?_⟩
    · rw [scoreAttempt_passed, scoreQuiz_passed, hPct]
    · rw [scoreAttempt_earned, scoreQuiz_score, hmap]

/-- C1 witness: the positive half at the spec's own four-question example
(all points 1), where both scorers emit identical aggregates. -/
theorem c1_scoring_equivalence_witness :
    (∀ q ∈ ([{ id := "q1", type := QType.multiple_choice_single, options := ["A", "B"],
               correctAnswer := some (.s "A") },
             { id := "q2", type := QType.true_false, correctAnswer := some (.b true) }] :
             List Question), q.points.getD 1 = 1) ∧
    ((scoreAttempt [{ id := "q1", type := QType.multiple_choice_single, options := ["A", "B"],
                      correctAnswer := some (.s "A") },
                    { id := "q2", type := QType.true_false, correctAnswer := some (.b true) }]
        [("q1", AnsVal.str "A")] (some 50)).totalScore =
      (scoreQuiz { questions := [{ id := "q1", type := QType.multiple_choice_single,
                                   options := ["A", "B"], correctAnswer := some (.s "A") },
                                 { id := "q2", type := QType.true_false,
                                   correctAnswer := some (.b true) }],
                   passingScore := some 50 }
        [("q1", AnsVal.str "A")]).totalScore) :=
  ⟨by decide,
   ((c1_scoring_equivalence
      [{ id := "q1", type := QType.multiple_choice_single, options := ["A", "B"],
         correctAnswer := some (.s "A") },
       { id := "q2", type := QType.true_false, correctAnswer := some (.b true) }]
      [("q1", AnsVal.str "A")] (some 50)).2 (by decide)).1⟩

/-- C1 counterexample: on a quiz whose single question carries
`points = 3`, the server scorer grades the correct answer as
`totalScore = 3` while the client scorer grades the same records and
answers as `totalScore = 1` — the two call sites are not semantically
identical. -/
theorem c1_counterexample :
    (scoreAttempt [{ id := "q1", type := QType.multiple_choice_single, points := some 3,
                     options := ["A", "B"], correctAnswer := some (.s "A") }]
      [("q1", AnsVal.str "A")] none).totalScore = 3 ∧
    (scoreQuiz { questions := [{ id := "q1", type := QType.multiple_choice_single,
                                 points := some 3, options := ["A", "B"],
                                 correctAnswer := some (.s "A") }] }
      [("q1", AnsVal.str "A")]).totalScore = 1 ∧ (3 : Nat) ≠ 1 := by
  refine ⟨by decide, by decide, by decide⟩

/-- `scoreQuiz`'s total as the sum of its own per-question scores. -/
theorem scoreQuiz_totalScore_pq (quiz : QuizDefinition) (answers : AnswerMap) :
    (scoreQuiz quiz answers).totalScore =
      ((scoreQuiz quiz answers).perQuestion.map (fun e => e.score)).sum := by
  simp only [scoreQuiz, foldl_add_eq, Nat.zero_add]

/-- `scoreQuiz`'s maximum as the sum of its own per-question maxima. -/
theorem scoreQuiz_maxScore_pq (quiz : QuizDefinition) (answers : AnswerMap) :
    (scoreQuiz quiz answers).maxScore =
      ((scoreQuiz quiz answers).perQuestion.map (fun e => e.maxScore)).sum := by
  simp only [scoreQuiz, foldl_add_eq, Nat.zero_add]

/-- Grading ignores a question's `options` field entirely, so the
option-shuffling pass of the normalizer leaves every per-question scoring
record unchanged. -/
theorem shuffleOptionsList_grading (answers : AnswerMap) (flag : Bool)
    (odraws : Nat → Nat → Nat) :
    ∀ (idx : Nat) (qs : List Question),
      (shuffleOptionsList flag odraws idx qs).map (fun question =>
        let answer := (lookupAnswer answers question.id).getD .null
        let isCorrect := clientIsCorrect question answer
        ({ questionId := question.id, isCorrect, score := if isCorrect then 1 else 0,
           maxScore := 1, answer } : ClientScoredQuestion)) =
      qs.map (fun question =>
        let answer := (lookupAnswer answers question.id).getD .null
        let isCorrect := clientIsCorrect question answer
        ({ questionId := question.id, isCorrect, score := if isCorrect then 1 else 0,
           maxScore := 1, answer } : ClientScoredQuestion))
  | idx, [] => rfl
  | idx, q :: rest => by
    simp only [shuffleOptionsList, List.map_cons]
    refine congrArg₂ List.cons ?_ (shuffleOptionsList_grading answers flag odraws (idx + 1) rest)
    by_cases h : (flag && (q.type == QType.multiple_choice_single ||
        q.type == QType.multiple_choice_multi)) = true
    · simp only [if_pos h]
      cases q
      rfl
    · simp only [if_neg h]

/-- C8 counterexample: with `shuffleQuestions` on and a draw that swaps the
two questions, the normalized quiz's `ScoreResult` differs from the
original's — the aggregates agree but the `perQuestion` sequence comes out
in the shuffled order, so the two results are not equal. -/
theorem c8_counterexample :
    scoreQuiz (normalizeQuiz (fun _ => 0) (fun _ _ => 0)
      { shuffleQuestions := some true,
        questions := [{ id := "a", type := QType.true_false, correctAnswer := some (.b true) },
                      { id := "b", type := QType.true_false, correctAnswer := some (.b false) }] })
      [("a", AnsVal.bool true)] ≠
    scoreQuiz
      { shuffleQuestions := some true,
        questions := [{ id := "a", type := QType.true_false, correctAnswer := some (.b true) },
                      { id := "b", type := QType.true_false, correctAnswer := some (.b false) }] }
      [("a", AnsVal.bool true)] := by
  decide

/-- C8 (amended): for every quiz, answer map and outcome of the random
draws, normalization never changes `totalScore`, `maxScore`, `percentage`
or `passed`, and the `perQuestion` sequence of the normalized quiz is a
permutation of the original's (it follows the shuffled question order, so
the full `ScoreResult` is unchanged exactly when the question order is). -/
theorem c8_normalize_invariance (quiz : QuizDefinition) (answers : AnswerMap)
    (qdraws : Nat → Nat) (odraws : Nat → Nat → Nat) :
    (scoreQuiz (normalizeQuiz qdraws odraws quiz) answers).totalScore =
      (scoreQuiz quiz answers).totalScore ∧
    (scoreQuiz (normalizeQuiz qdraws odraws quiz) answers).maxScore =
      (scoreQuiz quiz answers).maxScore ∧
    (scoreQuiz (normalizeQuiz qdraws odraws quiz) answers).percentage =
      (scoreQuiz quiz answers).percentage ∧
    (scoreQuiz (normalizeQuiz qdraws odraws quiz) answers).passed =
      (scoreQuiz quiz answers).passed ∧
    List.Perm (scoreQuiz (normalizeQuiz qdraws odraws quiz) answers).perQuestion
      (scoreQuiz quiz answers).perQuestion := by
  have hbase : List.Perm
      (if quiz.shuffleQuestions.getD false then shuffleArray qdraws quiz.questions
       else quiz.questions) quiz.questions := by
    by_cases h : quiz.shuffleQuestions.getD false
    · simpa [h] using shuffleArray_perm qdraws quiz.questions
    · simp [h]
  have hperm : List.Perm (scoreQuiz (normalizeQuiz qdraws odraws quiz) answers).perQuestion
      (scoreQuiz quiz answers).perQuestion := by
    show List.Perm
      ((shuffleOptionsList (quiz.shuffleOptions.getD false) odraws 0
        (if quiz.shuffleQuestions.getD false then shuffleArray qdraws quiz.questions
         else quiz.questions)).map _)
      (quiz.questions.map _)
    rw [shuffleOptionsList_grading]
    exact hbase.map _
  have hTot : (scoreQuiz (normalizeQuiz qdraws odraws quiz) answers).totalScore =
      (scoreQuiz quiz answers).totalScore := by
    rw [scoreQuiz_totalScore_pq, scoreQuiz_totalScore_pq]
    exact (hperm.map (fun e => e.score)).sum_eq
  have hMax : (scoreQuiz (normalizeQuiz qdraws odraws quiz) answers).maxScore =
      (scoreQuiz quiz answers).maxScore := by
    rw [scoreQuiz_maxScore_pq, scoreQuiz_maxScore_pq]
    exact (hperm.map (fun e => e.maxScore)).sum_eq
  have hPct : (scoreQuiz (normalizeQuiz qdraws odraws quiz) answers).percentage =
      (scoreQuiz quiz answers).percentage := by
    rw [scoreQuiz_percentage, scoreQuiz_percentage, hTot, hMax]
  refine ⟨hTot, hMax, hPct, ?_, hperm⟩
  rw [scoreQuiz_passed, scoreQuiz_passed, hPct]
  rfl

/-- Insertion preserves length. -/
theorem insertString_length (s : String) :
    ∀ l : List String, (insertString s l).length = l.length + 1
  | [] => rfl
  | t :: ts => by
    simp only [insertString]
    by_cases h : strLeB s t = true
    · simp [h]
    · simp [h, insertString_length s ts]

/-- Sorting preserves length. -/
theorem sortStrings_length : ∀ l : List String, (sortStrings l).length = l.length
  | [] => rfl
  | x :: xs => by
    simp only [sortStrings, List.foldr_cons]
    rw [show (List.foldr insertString [] xs) = sortStrings xs from rfl,
      insertString_length, sortStrings_length xs]
    rfl

/-- A string of length zero is the empty string. -/
theorem string_eq_empty_of_length (s : String) (h : s.length = 0) : s = "" := by
  cases s with
  | mk data =>
    cases data with
    | nil => rfl
    | cons c cs => simp [String.length] at h

/-- `null` is strictly equal to no stored correct answer. -/
theorem jsStrictEq_null (c : Option CorrectAns) : jsStrictEq AnsVal.null c = false := by
  cases c with
  | none => rfl
  | some cv => cases cv <;> rfl

/-- An array is strictly equal to no stored correct answer. -/
theorem jsStrictEq_emptyList (c : Option CorrectAns) :
    jsStrictEq (AnsVal.list []) c = false := by
  cases c with
  | none => rfl
  | some cv => cases cv <;> rfl

/-- A blank string answer is strictly equal to no non-blank correct
answer. -/
theorem jsStrictEq_blank_str (s : String) (c : Option CorrectAns) (hs : jsTrim s = "")
    (hbl : match c with | some (.s t) => jsTrim t ≠ "" | _ => True) :
    jsStrictEq (AnsVal.str s) c = false := by
  cases c with
  | none => rfl
  | some cv =>
    cases cv with
    | s t =>
      show (s == t) = false
      refine beq_eq_false_iff_ne.mpr (fun hst => ?_)
      exact hbl (by rw [← hst]; exact hs)
    | b bv => rfl

/-- The multi-choice comparison against a non-empty expected set fails for
an empty provided set. -/
theorem mcm_empty_provided (qcas : List String) (hne : qcas ≠ []) :
    ((([] : List String).length == (sortStrings qcas).length) &&
      ((([] : List String).zip (sortStrings qcas)).all (fun p => p.1 == p.2))) = false := by
  have hlen : (sortStrings qcas).length ≠ 0 := by
    rw [sortStrings_length]
    simpa using fun h => hne (List.length_eq_zero.mp h)
  rw [show ((([] : List String).length == (sortStrings qcas).length) : Bool) = false
    from beq_eq_false_iff_ne.mpr (fun h => hlen h.symm)]
  rfl

/-- The short-text membership test against blank-free accepted answers
fails for the empty normalized answer. -/
theorem st_blank_answer (qacc : List String)
    (hbl : ∀ s ∈ qacc, jsToLower (jsTrim s) ≠ "") :
    (qacc.any (fun accepted => jsToLower (jsTrim accepted) == ("" : String))) = false := by
  refine List.any_eq_false.mpr (fun acc hacc => ?_)
  simpa using hbl acc hacc

/-- A missing answer (absent, null, empty array, or blank string — the
submit route's own test) is graded incorrect by the client grading
function, provided the question's configured answers are not blank. -/
theorem clientIsCorrect_missing (q : Question) (ans : Option AnsVal)
    (hmiss : answerMissing ans = true) (hblank : blankFree q) :
    clientIsCorrect q (ans.getD AnsVal.null) = false := by
  rcases q with ⟨qid, qtype, qprompt, qreq, qpts, qexpl, qopts, qca, qcas, qacc⟩
  rcases ans with _ | v
  · -- absent key: graded as null
    cases qtype with
    | multiple_choice_single => exact jsStrictEq_null qca
    | true_false => exact jsStrictEq_null qca
    | multiple_choice_multi => exact mcm_empty_provided qcas hblank
    | short_text => exact st_blank_answer qacc hblank
  · rcases v with s | xs | b | _
    · -- blank string
      have hmiss2 : ((jsTrim s).length == 0) = true := hmiss
      have hs : jsTrim s = "" :=
        string_eq_empty_of_length _ (by simpa using hmiss2)
      cases qtype with
      | multiple_choice_single => exact jsStrictEq_blank_str s qca hs hblank
      | true_false => exact jsStrictEq_blank_str s qca hs hblank
      | multiple_choice_multi => exact mcm_empty_provided qcas hblank
      | short_text =>
        have hnorm : jsToLower (jsTrim ((some (AnsVal.str s)).getD AnsVal.null).jsStringOrEmpty)
            = "" := by
          show jsToLower (jsTrim s) = ""
          rw [hs]
          rfl
        simp only [clientIsCorrect]
        rw [hnorm]
        exact st_blank_answer qacc hblank
    · -- empty array
      have hmiss2 : xs.isEmpty = true := hmiss
      have hxs : xs = [] := List.isEmpty_iff.mp hmiss2
      subst hxs
      cases qtype with
      | multiple_choice_single => exact jsStrictEq_emptyList qca
      | true_false => exact jsStrictEq_emptyList qca
      | multiple_choice_multi => exact mcm_empty_provided qcas hblank
      | short_text => exact st_blank_answer qacc hblank
    · -- boolean answers are never missing
      exact absurd hmiss (by simp [answerMissing])
    · -- explicit null
      cases qtype with
      | multiple_choice_single => exact jsStrictEq_null qca
      | true_false => exact jsStrictEq_null qca
      | multiple_choice_multi => exact mcm_empty_provided qcas hblank
      | short_text => exact st_blank_answer qacc hblank

/-- C3 counterexample: a quiz with `enforceRequiredBeforeSubmit = true` and
one required short_text question whose accepted answer is the
(schema-valid) whitespace-only string " ", with no answer given. The
voluntary submit is refused as the claim says — but the forced (client-
side) grading of the very same state marks the missing answer CORRECT, not
incorrect: the missing answer normalizes to "" and the accepted answer " "
trims to "" as well. -/
theorem c3_counterexample :
    submitHandler 0 {} { enforceRequiredBeforeSubmit := some true }
      [{ id := "s1", type := QType.short_text, required := some true,
         acceptedAnswers := [" "] }] [] = .err .missingRequired ∧
    ((scoreQuiz { questions := [{ id := "s1", type := QType.short_text,
                                  required := some true, acceptedAnswers := [" "] }] }
        []).perQuestion.map (fun e => e.isCorrect) = [true]) := by
  refine ⟨by decide, by decide⟩

/-- C3 (amended): on a quiz whose `enforceRequiredBeforeSubmit` setting is
not `false`, with a required question whose answer is missing (absent,
null, empty sequence, or blank string — the route's own test), a voluntary
submit fails with the `missing_required` precondition error and performs no
write, leaving the attempt IN_PROGRESS; the forced (time-limit) submission
path — the client grading the current answers with `scoreQuiz` — always
succeeds and grades that missing answer as incorrect PROVIDED the
question's configured answers are not blank (no whitespace-only
correctAnswer or accepted answer, and a non-empty correctAnswers set);
a whitespace-only accepted answer defeats this, see the counterexample. -/
theorem c3_required_gating (now : Int) (attempt : AttemptRow) (settings : QuizSettings)
    (questions : List Question) (payload : AnswerMap) (q : Question) (i : Nat)
    (henf : settings.enforceRequiredBeforeSubmit ≠ some false)
    (hqi : questions[i]? = some q)
    (hreq : q.required = some true)
    (hmiss : answerMissing (lookupAnswer payload q.id) = true)
    (hblank : blankFree q) :
    submitHandler now attempt settings questions payload = .err .missingRequired ∧
    ((scoreQuiz { questions := questions, passingScore := settings.passingScore }
        payload).perQuestion[i]?).map (fun e => e.isCorrect) = some false := by
  constructor
  · have hqmem : q ∈ questions := List.getElem?_mem hqi
    have h1 : q ∈ questions.filter (fun qq => qq.required.getD false) :=
      List.mem_filter.mpr ⟨hqmem, by simp [hreq]⟩
    have h2 : q.id ∈ (questions.filter (fun qq => qq.required.getD false)).map
        (fun qq => qq.id) := List.mem_map_of_mem _ h1
    have h3 : q.id ∈ ((questions.filter (fun qq => qq.required.getD false)).map
        (fun qq => qq.id)).filter (fun qid => answerMissing (lookupAnswer payload qid)) :=
      List.mem_filter.mpr ⟨h2, hmiss⟩
    have h4 : (((questions.filter (fun qq => qq.required.getD false)).map
        (fun qq => qq.id)).filter
          (fun qid => answerMissing (lookupAnswer payload qid))).isEmpty = false := by
      cases hE : (((questions.filter (fun qq => qq.required.getD false)).map
        (fun qq => qq.id)).filter
          (fun qid => answerMissing (lookupAnswer payload qid))).isEmpty with
      | false => rfl
      | true => exact absurd (List.isEmpty_iff.mp hE) (List.ne_nil_of_mem h3)
    have hbne : (settings.enforceRequiredBeforeSubmit != some false) = true := by
      rcases hset : settings.enforceRequiredBeforeSubmit with _ | b
      · rfl
      · cases b with
        | false => exact absurd hset henf
        | true => rfl
    simp only [submitHandler]
    rw [hbne, h4]
    rfl
  · show (((questions.map (fun question =>
        let answer := (lookupAnswer payload question.id).getD AnsVal.null
        let isCorrect := clientIsCorrect question answer
        ({ questionId := question.id, isCorrect, score := if isCorrect then 1 else 0,
           maxScore := 1, answer } : ClientScoredQuestion)))[i]?).map
        (fun e => e.isCorrect)) = some false
    rw [List.getElem?_map, hqi]
    show some (clientIsCorrect q ((lookupAnswer payload q.id).getD AnsVal.null)) = some false
    rw [clientIsCorrect_missing q (lookupAnswer payload q.id) hmiss hblank]

/-- C3 witness: a concrete required true/false question with no answer —
the voluntary submit errors and the forced grading marks it incorrect. -/
theorem c3_required_gating_witness :
    (({ enforceRequiredBeforeSubmit := some true } : QuizSettings).enforceRequiredBeforeSubmit
        ≠ some false) ∧
    (submitHandler 0 {} { enforceRequiredBeforeSubmit := some true }
      [{ id := "q1", type := QType.true_false, required := some true,
         correctAnswer := some (.b true) }] [] = .err .missingRequired ∧
    ((scoreQuiz { questions := [{ id := "q1", type := QType.true_false,
                                  required := some true, correctAnswer := some (.b true) }],
                  passingScore :=
                    ({ enforceRequiredBeforeSubmit := some true } : QuizSettings).passingScore }
        []).perQuestion[0]?).map (fun e => e.isCorrect) = some false) :=
  ⟨by decide,
   c3_required_gating 0 {} { enforceRequiredBeforeSubmit := some true }
     [{ id := "q1", type := QType.true_false, required := some true,
        correctAnswer := some (.b true) }] [] _ 0
     (by decide) rfl rfl rfl (by trivial)⟩
